import Mathlib

/-!
Shallow embedding of `app.py` from the NO2 Streamlit prediction tool.

Python floats are modelled as rationals (`ℚ`), pandas DataFrames carrying a
single row as association lists from column name to value, and the script's
top-level control flow (artifact existence check, artifact loading, feature
assembly, reindexing, scaling, prediction, conversion, classification) as a
total function into an outcome type.  The external scaler and model artifacts
are parameters of the pipeline function.
-/

namespace NO2App

/-- Molar mass of NO2 in g/mol (`MOLAR_MASS_NO2_G_PER_MOL` in the source). -/
def MOLAR_MASS_NO2_G_PER_MOL : ℚ := 46.0055

/-- Grams to micrograms factor (`G_TO_UG` in the source). -/
def G_TO_UG : ℚ := 1000000

/-- `fitur_column(lag)`: returns `["lag_1", ..., "lag_<lag>"]`,
mirroring `[f"lag_{i}" for i in range(1, lag + 1)]`. -/
def fitur_column (lag : Nat) : List String :=
  (List.range lag).map (fun i => "lag_" ++ toString (i + 1))

/-- `konversi_kolom_ke_volume(mol_per_m2, ketinggian_m)`: converts column
density (mol/m^2) to volume concentration (mol/m^3); returns 0.0 when the
height is `<= 0`.  The Python default for `ketinggian_m` is 100.0; callers in
this embedding pass it explicitly. -/
def konversi_kolom_ke_volume (mol_per_m2 : ℚ) (ketinggian_m : ℚ) : ℚ :=
  if ketinggian_m ≤ 0 then 0 else mol_per_m2 / ketinggian_m

/-- `konversi_ke_skala_standar(mol_per_m2)`: converts to mass concentration in
ug/m^3, calling `konversi_kolom_ke_volume` with its default height of 100. -/
def konversi_ke_skala_standar (mol_per_m2 : ℚ) : ℚ :=
  let g_per_m3 := konversi_kolom_ke_volume mol_per_m2 100 * MOLAR_MASS_NO2_G_PER_MOL
  let ug_per_m3 := g_per_m3 * G_TO_UG
  ug_per_m3

/-- `MODEL_PATH` in the source. -/
def MODEL_PATH : String := "knn_lag_3.pkl"

/-- `SCALER_PATH` in the source. -/
def SCALER_PATH : String := "scaler_lag_3.pkl"

/-- The fatal message shown when an artifact file is missing (line 57). -/
def startupErrorMsg : String :=
  "File model \x27" ++ MODEL_PATH ++ "\x27 atau scaler \x27" ++ SCALER_PATH ++
    "\x27 tidak ditemukan. Pastikan path sudah benar."

/-- The message shown when reindexing raises `KeyError` (line 107). -/
def schemaErrorMsg : String :=
  "Nama kolom input tidak sesuai dengan \x27expected_order\x27. Cek fungsi fitur_column."

/-- `feature_names = fitur_column(3)` (line 88). -/
def feature_names : List String := fitur_column 3

/-- The single-row DataFrame built on lines 92-96: each feature name from
`feature_names` is bound to the corresponding lag input. -/
def input_df (no2_lag_1_input no2_lag_2_input no2_lag_3_input : ℚ) :
    List (String × ℚ) :=
  [(feature_names.getD 0 "", no2_lag_1_input),
   (feature_names.getD 1 "", no2_lag_2_input),
   (feature_names.getD 2 "", no2_lag_3_input)]

/-- `expected_order = ['lag_3', 'lag_2', 'lag_1']` (line 102). -/
def expected_order : List String := ["lag_3", "lag_2", "lag_1"]

/-- `df[order]` column reindexing as pandas performs it on line 103: selects
the named columns in the given order, raising `KeyError` (modelled as
`Except.error schemaErrorMsg`, which the `except KeyError` handler displays)
when any requested column is absent. -/
def reindex (df : List (String × ℚ)) : List String → Except String (List ℚ)
  | [] => Except.ok []
  | c :: cs =>
    match List.lookup c df with
    | none => Except.error schemaErrorMsg
    | some v =>
      match reindex df cs with
      | Except.error msg => Except.error msg
      | Except.ok vs => Except.ok (v :: vs)

/-- The two-valued air-quality verdict (`kualitas` on lines 140-147). -/
inductive Kualitas where
  | baik
  | buruk
  deriving DecidableEq, Repr

/-- The threshold branch on line 140: `no2_ug_m3 <= 25` is Baik, else Buruk. -/
def kualitas (no2_ug_m3 : ℚ) : Kualitas :=
  if no2_ug_m3 ≤ 25 then Kualitas.baik else Kualitas.buruk

/-- The description chosen in the same branch (lines 143 and 147). -/
def deskripsi (no2_ug_m3 : ℚ) : String :=
  if no2_ug_m3 ≤ 25 then
    "Kualitas udara aman menurut standar WHO (≤ 25 µg/m³)."
  else
    "Kualitas udara melebihi batas aman WHO (> 25 µg/m³)."

/-- Outcome of one run of the script: a fatal startup error (missing artifact,
`st.stop`), a load failure (`joblib.load` raised), a schema error (the
`KeyError` handler, `st.stop`), an inference-time error (the `except` on line
153, e.g. an empty prediction batch), or a displayed prediction. -/
inductive AppResult where
  | startupError (msg : String)
  | loadError
  | schemaError (msg : String)
  | inferenceError
  | output (ug_per_m3 : ℚ) (mol_per_m2 : ℚ) (verdict : Kualitas) (desc : String)
  deriving DecidableEq, Repr

/-- Whether a run ended in the `KeyError` / schema-mismatch branch. -/
def AppResult.isSchemaError : AppResult → Bool
  | AppResult.schemaError _ => true
  | _ => false

/-- Whether a run reached the prediction display (a prediction attempt
succeeded). -/
def AppResult.isOutput : AppResult → Bool
  | AppResult.output _ _ _ _ => true
  | _ => false

/-- One run of the script body (lines 56-154).  `modelExists`/`scalerExists`
model `os.path.exists` on the two artifact paths; `loadOk` models whether
`joblib.load` succeeds; `scalerTransform` and `modelPredict` are the loaded
artifacts (`predict` returns a batch, of which element 0 is taken). -/
def runApp (modelExists scalerExists loadOk : Bool)
    (scalerTransform : List ℚ → List ℚ) (modelPredict : List ℚ → List ℚ)
    (no2_lag_1_input no2_lag_2_input no2_lag_3_input : ℚ) : AppResult :=
  if !modelExists || !scalerExists then
    AppResult.startupError startupErrorMsg
  else if !loadOk then
    AppResult.loadError
  else
    match reindex (input_df no2_lag_1_input no2_lag_2_input no2_lag_3_input)
        expected_order with
    | Except.error msg => AppResult.schemaError msg
    | Except.ok fitur =>
      let X_scaled := scalerTransform fitur
      match (modelPredict X_scaled).head? with
      | none => AppResult.inferenceError
      | some y_pred =>
        let no2_ug_m3 := konversi_ke_skala_standar y_pred
        AppResult.output no2_ug_m3 y_pred (kualitas no2_ug_m3)
          (deskripsi no2_ug_m3)

/-! Helper lemmas shared by the claim theorems. -/

/-- The conversion collapses to multiplication by 460055, since the 100 m
height guard is never taken (`100 > 0`). -/
lemma konversi_eq_mul (x : ℚ) : konversi_ke_skala_standar x = x * 460055 := by
  unfold konversi_ke_skala_standar konversi_kolom_ke_volume
  rw [if_neg (by norm_num)]
  unfold MOLAR_MASS_NO2_G_PER_MOL G_TO_UG
  norm_num
  ring

/-- Reindexing errors exactly when some requested column is absent. -/
lemma reindex_error_iff (df : List (String × ℚ)) (order : List String) :
    (∃ msg, reindex df order = Except.error msg) ↔
      ∃ c ∈ order, List.lookup c df = none := by
  induction order with
  | nil => simp [reindex]
  | cons c cs ih =>
    simp only [reindex]
    cases h : List.lookup c df with
    | none =>
      simp only [h]
      constructor
      · intro _
        exact ⟨c, by simp, h⟩
      · intro _
        exact ⟨schemaErrorMsg, rfl⟩
    | some v =>
      cases hr : reindex df cs with
      | error m =>
        simp only [h, hr]
        constructor
        · intro _
          obtain ⟨a, ha, hla⟩ := ih.mp ⟨m, hr⟩
          exact ⟨a, List.mem_cons_of_mem _ ha, hla⟩
        · intro _
          exact ⟨m, rfl⟩
      | ok vs =>
        simp only [h, hr]
        constructor
        · rintro ⟨msg, hmsg⟩
          exact Except.noConfusion hmsg
        · rintro ⟨a, ha, hla⟩
          rcases List.mem_cons.mp ha with rfl | hmem
          · rw [h] at hla
            exact Option.noConfusion hla
          · obtain ⟨m, hm⟩ := ih.mpr ⟨a, hmem, hla⟩
            rw [hr] at hm
            exact Except.noConfusion hm

/-- Every reindexing error carries the fixed schema-mismatch message. -/
lemma reindex_error_msg (df : List (String × ℚ)) (order : List String) :
    ∀ msg : String, reindex df order = Except.error msg → msg = schemaErrorMsg := by
  induction order with
  | nil =>
    intro msg h
    exact Except.noConfusion h
  | cons c cs ih =>
    intro msg h
    simp only [reindex] at h
    split at h
    · exact (Except.error.inj h).symm
    · split at h
      next m hr =>
        have hm := Except.error.inj h
        exact hm ▸ ih m hr
      next vs hr =>
        exact Except.noConfusion h

end NO2App

namespace NO2App

/-- C1: for every x ≥ 0, `konversi_ke_skala_standar x` equals
`(x / 100) * 46.0055 * 1000000`: the column density divided by the fixed 100 m
boundary-layer height, times the NO2 molar mass 46.0055 g/mol, times 1,000,000
µg per g. -/
theorem konversi_ke_skala_standar_formula (x : ℚ) (_hx : 0 ≤ x) :
    konversi_ke_skala_standar x = x / 100 * 46.0055 * 1000000 := by
  rw [konversi_eq_mul]
  norm_num
  ring

/-- Witness for C1 at x = 3. -/
theorem konversi_ke_skala_standar_formula_witness :
    0 ≤ (3 : ℚ) ∧ konversi_ke_skala_standar 3 = 3 / 100 * 46.0055 * 1000000 :=
  ⟨by norm_num, konversi_ke_skala_standar_formula 3 (by norm_num)⟩

/-- C2: the assembled frame binds `lag_1`, `lag_2`, `lag_3` to the three
inputs respectively, and reindexing by `expected_order` yields the fixed
sequence `[lag_3, lag_2, lag_1]`; in particular the inputs
`(0.000012, 0.000014, 0.000017)` assemble to
`[0.000017, 0.000014, 0.000012]`. -/
theorem input_df_assembly_order (l1 l2 l3 : ℚ) :
    List.lookup "lag_1" (input_df l1 l2 l3) = some l1
    ∧ List.lookup "lag_2" (input_df l1 l2 l3) = some l2
    ∧ List.lookup "lag_3" (input_df l1 l2 l3) = some l3
    ∧ reindex (input_df l1 l2 l3) expected_order = Except.ok [l3, l2, l1]
    ∧ reindex (input_df 0.000012 0.000014 0.000017) expected_order
        = Except.ok [0.000017, 0.000014, 0.000012] :=
  ⟨rfl, rfl, rfl, rfl, rfl⟩

/-- C3: with all artifacts present, an identity scaler and a model constantly
predicting `0.00003` mol/m², the pipeline on inputs
`(0.000012, 0.000014, 0.000017)` outputs the standardized concentration
`(0.00003 / 100) * 46.0055 * 1000000` (= 13.80165 µg/m³), the raw prediction
`0.00003`, and the verdict Baik (GOOD). -/
theorem pipeline_stub_end_to_end :
    runApp true true true (fun v => v) (fun _ => [0.00003])
        0.000012 0.000014 0.000017
      = AppResult.output (0.00003 / 100 * 46.0055 * 1000000) 0.00003 Kualitas.baik
          "Kualitas udara aman menurut standar WHO (≤ 25 µg/m³)." := by
  have h1 : konversi_ke_skala_standar 0.00003 = 0.00003 / 100 * 46.0055 * 1000000 := by
    rw [konversi_eq_mul]
    norm_num
  show AppResult.output (konversi_ke_skala_standar 0.00003) 0.00003
      (kualitas (konversi_ke_skala_standar 0.00003))
      (deskripsi (konversi_ke_skala_standar 0.00003)) = _
  rw [h1]
  norm_num [kualitas, deskripsi]

/-- C4: the threshold classifier is total with threshold 25 µg/m³: every
concentration ≤ 25 is Baik (GOOD) with the safe-per-WHO description, every
concentration > 25 is Buruk (BAD) with the exceeds-limit description; in
particular 25 is Baik, 25.0000001 is Buruk, and 0 is Baik. -/
theorem kualitas_threshold :
    (∀ c : ℚ, c ≤ 25 → kualitas c = Kualitas.baik ∧
      deskripsi c = "Kualitas udara aman menurut standar WHO (≤ 25 µg/m³).")
    ∧ (∀ c : ℚ, 25 < c → kualitas c = Kualitas.buruk ∧
      deskripsi c = "Kualitas udara melebihi batas aman WHO (> 25 µg/m³).")
    ∧ kualitas 25 = Kualitas.baik
    ∧ kualitas 25.0000001 = Kualitas.buruk
    ∧ kualitas 0 = Kualitas.baik := by
  refine ⟨?_, ?_, ?_, ?_, ?_⟩
  · intro c hc
    exact ⟨by simp [kualitas, hc], by simp [deskripsi, hc]⟩
  · intro c hc
    exact ⟨by simp [kualitas, not_le.mpr hc], by simp [deskripsi, not_le.mpr hc]⟩
  · norm_num [kualitas]
  · norm_num [kualitas]
  · norm_num [kualitas]

/-- Witness for C4 at concentrations 10 and 30. -/
theorem kualitas_threshold_witness :
    (kualitas 10 = Kualitas.baik ∧
      deskripsi 10 = "Kualitas udara aman menurut standar WHO (≤ 25 µg/m³).")
    ∧ (kualitas 30 = Kualitas.buruk ∧
      deskripsi 30 = "Kualitas udara melebihi batas aman WHO (> 25 µg/m³).") :=
  ⟨kualitas_threshold.1 10 (by norm_num), kualitas_threshold.2.1 30 (by norm_num)⟩

/-- C5: the standard-scale conversion is nonnegative on nonnegative inputs,
strictly increasing everywhere, and maps 0 to exactly 0. -/
theorem konversi_ke_skala_standar_monotone :
    (∀ x : ℚ, 0 ≤ x → 0 ≤ konversi_ke_skala_standar x)
    ∧ (∀ x y : ℚ, x < y → konversi_ke_skala_standar x < konversi_ke_skala_standar y)
    ∧ konversi_ke_skala_standar 0 = 0 := by
  refine ⟨?_, ?_, ?_⟩
  · intro x hx
    rw [konversi_eq_mul]
    exact mul_nonneg hx (by norm_num)
  · intro x y hxy
    rw [konversi_eq_mul, konversi_eq_mul]
    exact mul_lt_mul_of_pos_right hxy (by norm_num)
  · rw [konversi_eq_mul]
    ring

/-- Witness for C5 at x = 2 and the pair (1, 2). -/
theorem konversi_ke_skala_standar_monotone_witness :
    0 ≤ konversi_ke_skala_standar 2 ∧
      konversi_ke_skala_standar 1 < konversi_ke_skala_standar 2 :=
  ⟨konversi_ke_skala_standar_monotone.1 2 (by norm_num),
   konversi_ke_skala_standar_monotone.2.1 1 2 (by norm_num)⟩

/-- C6: for every height h ≤ 0 (including 0 and -5) the column-to-volume
conversion returns 0 instead of dividing, and for h > 0 it returns x / h. -/
theorem konversi_kolom_ke_volume_guard :
    (∀ x h : ℚ, h ≤ 0 → konversi_kolom_ke_volume x h = 0)
    ∧ (∀ x h : ℚ, 0 < h → konversi_kolom_ke_volume x h = x / h)
    ∧ (∀ x : ℚ, konversi_kolom_ke_volume x 0 = 0)
    ∧ (∀ x : ℚ, konversi_kolom_ke_volume x (-5) = 0) := by
  refine ⟨?_, ?_, ?_, ?_⟩
  · intro x h hh
    simp [konversi_kolom_ke_volume, hh]
  · intro x h hh
    simp [konversi_kolom_ke_volume, not_le.mpr hh]
  · intro x
    simp [konversi_kolom_ke_volume]
  · intro x
    norm_num [konversi_kolom_ke_volume]

/-- Witness for C6 at (7, -1) and (8, 2). -/
theorem konversi_kolom_ke_volume_guard_witness :
    konversi_kolom_ke_volume 7 (-1) = 0 ∧ konversi_kolom_ke_volume 8 2 = 8 / 2 :=
  ⟨konversi_kolom_ke_volume_guard.1 7 (-1) (by norm_num),
   konversi_kolom_ke_volume_guard.2.1 8 2 (by norm_num)⟩

/-- C7: if either artifact file is absent, the run ends in the fatal startup
error whose message names both artifact paths, and no prediction output is
produced. -/
theorem startup_missing_artifact_fatal
    (me se lo : Bool) (st mp : List ℚ → List ℚ) (l1 l2 l3 : ℚ)
    (hmiss : me = false ∨ se = false) :
    runApp me se lo st mp l1 l2 l3 = AppResult.startupError startupErrorMsg
    ∧ startupErrorMsg =
        "File model \x27" ++ MODEL_PATH ++ "\x27 atau scaler \x27" ++ SCALER_PATH ++
          "\x27 tidak ditemukan. Pastikan path sudah benar."
    ∧ (runApp me se lo st mp l1 l2 l3).isOutput = false := by
  have h1 : runApp me se lo st mp l1 l2 l3 = AppResult.startupError startupErrorMsg := by
    rcases hmiss with rfl | rfl
    · simp [runApp]
    · cases me <;> simp [runApp]
  refine ⟨h1, rfl, ?_⟩
  rw [h1]
  rfl

/-- Witness for C7 with the model file missing. -/
theorem startup_missing_artifact_fatal_witness :
    runApp false true true (fun v => v) (fun v => v) 0 0 0
      = AppResult.startupError startupErrorMsg :=
  (startup_missing_artifact_fatal false true true (fun v => v) (fun v => v) 0 0 0
    (Or.inl rfl)).1

/-- C8: for every assembled frame the reindexing step fails if and only if
its column set differs from the expected one (it never does, so neither side
holds); in general reindexing fails exactly when some expected column is
absent, and every such failure carries the fixed user-visible
schema-mismatch message. -/
theorem reindex_schema_mismatch :
    (∀ l1 l2 l3 : ℚ,
      (∃ msg, reindex (input_df l1 l2 l3) expected_order = Except.error msg) ↔
        ¬ ((input_df l1 l2 l3).map Prod.fst).toFinset = expected_order.toFinset)
    ∧ (∀ df : List (String × ℚ),
        (∃ msg, reindex df expected_order = Except.error msg) ↔
          ∃ c ∈ expected_order, List.lookup c df = none)
    ∧ (∀ (df : List (String × ℚ)) (msg : String),
        reindex df expected_order = Except.error msg → msg = schemaErrorMsg) := by
  refine ⟨?_, ?_, ?_⟩
  · intro l1 l2 l3
    constructor
    · rintro ⟨msg, hmsg⟩
      rw [show reindex (input_df l1 l2 l3) expected_order = Except.ok [l3, l2, l1]
        from rfl] at hmsg
      exact Except.noConfusion hmsg
    · intro hne
      exfalso
      apply hne
      have hnames : (input_df l1 l2 l3).map Prod.fst = ["lag_1", "lag_2", "lag_3"] := rfl
      rw [hnames]
      decide
  · intro df
    exact reindex_error_iff df expected_order
  · intro df msg
    exact reindex_error_msg df expected_order msg

/-- Witness for C8: the empty frame misses every expected column, and
reindexing it fails with the fixed schema-mismatch message. -/
theorem reindex_schema_mismatch_witness :
    reindex ([] : List (String × ℚ)) expected_order = Except.error schemaErrorMsg := by
  obtain ⟨msg, hmsg⟩ := (reindex_schema_mismatch.2.1 []).mpr ⟨"lag_3", by decide, rfl⟩
  have h2 := reindex_schema_mismatch.2.2 [] msg hmsg
  rw [h2] at hmsg
  exact hmsg

/-- C9: for every x (negative included) the conversion equals `x * 460055`
with no clamping, so a negative prediction yields a negative standardized
concentration and, being ≤ 25, the verdict Baik (GOOD). -/
theorem negative_prediction_not_clamped (x : ℚ) :
    konversi_ke_skala_standar x = x * 460055
    ∧ (x < 0 → konversi_ke_skala_standar x < 0
        ∧ kualitas (konversi_ke_skala_standar x) = Kualitas.baik) := by
  refine ⟨konversi_eq_mul x, fun hx => ?_⟩
  have hneg : konversi_ke_skala_standar x < 0 := by
    rw [konversi_eq_mul]
    exact mul_neg_of_neg_of_pos hx (by norm_num)
  have hle : konversi_ke_skala_standar x ≤ 25 := le_trans hneg.le (by norm_num)
  exact ⟨hneg, by simp [kualitas, hle]⟩

/-- Witness for C9 at x = -1. -/
theorem negative_prediction_not_clamped_witness :
    konversi_ke_skala_standar (-1) = -1 * 460055
    ∧ konversi_ke_skala_standar (-1) < 0
    ∧ kualitas (konversi_ke_skala_standar (-1)) = Kualitas.baik :=
  ⟨(negative_prediction_not_clamped (-1)).1,
   ((negative_prediction_not_clamped (-1)).2 (by norm_num)).1,
   ((negative_prediction_not_clamped (-1)).2 (by norm_num)).2⟩

/-- C10: `fitur_column 3` is exactly `["lag_1", "lag_2", "lag_3"]`, reindexing
the assembled frame always succeeds with `[lag_3, lag_2, lag_1]`, and no run
of the script ever reaches the schema-mismatch (`KeyError`) branch. -/
theorem fitur_column_schema_safe :
    fitur_column 3 = ["lag_1", "lag_2", "lag_3"]
    ∧ (∀ l1 l2 l3 : ℚ,
        reindex (input_df l1 l2 l3) expected_order = Except.ok [l3, l2, l1])
    ∧ (∀ (me se lo : Bool) (st mp : List ℚ → List ℚ) (l1 l2 l3 : ℚ),
        (runApp me se lo st mp l1 l2 l3).isSchemaError = false) := by
  refine ⟨by decide, fun l1 l2 l3 => rfl, ?_⟩
  intro me se lo st mp l1 l2 l3
  have hok : reindex (input_df l1 l2 l3) expected_order = Except.ok [l3, l2, l1] := rfl
  cases hh : (mp (st [l3, l2, l1])).head? with
  | none =>
    cases me <;> cases se <;> cases lo <;>
      simp [runApp, hok, hh, AppResult.isSchemaError]
  | some y =>
    cases me <;> cases se <;> cases lo <;>
      simp [runApp, hok, hh, AppResult.isSchemaError]

end NO2App
